import Mathlib

/-
Verification of the multix thread-pool core (src/core.rs) against its
natural-language specification. The pool's atomic lifecycle word, the
add_worker provisioning protocol, submission, and the two shutdown levels
are embedded shallowly; the atomic helpers (atomic.rs), the lifecycle enum
(lifecycle.rs) and the external two_lock_queue channel are modelled from the
specification, as marked on each definition.
-/

namespace Multix

/-- Modelled from the spec: the ordered lifecycle enum of section 3.1,
Running < Shutdown < Stop < Tidying < Terminated; the source module
lifecycle.rs is not among the provided sources. -/
inductive Lifecycle
  | Running
  | Shutdown
  | Stop
  | Tidying
  | Terminated
deriving DecidableEq

/-- Ordinal of a lifecycle phase, giving the order the source compares
Lifecycle values with. -/
def Lifecycle.ord : Lifecycle → Nat
  | Lifecycle.Running => 0
  | Lifecycle.Shutdown => 1
  | Lifecycle.Stop => 2
  | Lifecycle.Tidying => 3
  | Lifecycle.Terminated => 4

instance : LE Lifecycle := ⟨fun a b => a.ord ≤ b.ord⟩

instance (a b : Lifecycle) : Decidable (a ≤ b) := Nat.decLe a.ord b.ord

/-- The pair packed into the single atomic state word: lifecycle phase in
the high bits, worker count in the low bits (spec section 3.2). -/
structure PoolState where
  lifecycle : Lifecycle
  worker_count : Nat
deriving DecidableEq

/-- Pool configuration, from struct Config in core.rs (lines 26-33). The
mount and unmount callback fields are omitted: no claim concerns them and
opaque closures add nothing to the model. -/
structure Config where
  size : Nat
  max_size : Nat
  timeout : Option Nat
  stack_size : Option Nat
deriving DecidableEq

/-- The assertions of TPBuilder::build (core.rs lines 123-131). -/
def build_asserts (cfg : Config) : Bool :=
  decide (cfg.size ≥ 1) && decide (cfg.size ≤ cfg.max_size) &&
    decide (cfg.max_size ≥ cfg.size)

/-- Successor state of a successful worker-count increment. -/
def inc_worker_count (s : PoolState) : PoolState :=
  { s with worker_count := s.worker_count + 1 }

/-- Modelled from the spec: compare_and_inc_worker_count of section 4.1 (the
source module atomic.rs is not among the provided sources). The first
argument is the actual current value of the atomic word, the second the
value the caller expects; the CAS succeeds exactly when the two agree, and
on failure returns the observed word. -/
def compare_and_inc_worker_count (current expected : PoolState) :
    Except PoolState PoolState :=
  if current = expected then
    Except.ok (inc_worker_count expected)
  else
    Except.error current

/-- Modelled from the spec: try_transition_to_stop of section 4.1, a CAS of
the phase from at most Shutdown to Stop; the Bool tells whether this call
performed the transition, and when the phase is already at or past Stop
nothing changes. -/
def try_transition_to_stop (s : PoolState) : Bool × PoolState :=
  if s.lifecycle ≤ Lifecycle.Shutdown then
    (true, { s with lifecycle := Lifecycle.Stop })
  else
    (false, s)

/-- The guard wc >= CAPACITY or wc >= target of Inner::add_worker (core.rs
lines 340-350), where target is config.size for a core spawn and
config.max_size for an overflow spawn. CAPACITY, the largest worker count
the packed word can hold, comes from the absent atomic.rs and is therefore
kept as a parameter, per spec section 3.2. -/
def worker_limit_reached (cfg : Config) (CAPACITY : Nat) (core : Bool)
    (wc : Nat) : Bool :=
  decide (wc ≥ CAPACITY) ||
    decide (wc ≥ (if core then cfg.size else cfg.max_size))

/-- Record of one compare_and_inc_worker_count attempt: the state the caller
expected and the actual value of the atomic word at that moment. -/
structure CasAttempt where
  expected : PoolState
  actual : PoolState
deriving DecidableEq

/-- An attempt succeeded exactly when expected and actual words agreed. -/
def CasAttempt.succeeded (a : CasAttempt) : Bool := decide (a.expected = a.actual)

/-- Prepend one recorded CAS attempt to a loop outcome. -/
def with_attempt (a : CasAttempt) (r : Except Unit PoolState × List CasAttempt) :
    Except Unit PoolState × List CasAttempt :=
  (r.1, a :: r.2)

/-- The retry/CAS loop of Inner::add_worker (core.rs lines 332-361), with
the re-entry of the labelled retry loop inlined at the two points that
execute continue. lifecycle is the phase saved on entering the retry loop,
already checked to be below Stop; state is the locally observed word; env
lists the actual values of the atomic word met by successive CAS attempts,
the empty env meaning the next CAS meets no interference and so finds the
expected value. Returns the loop outcome and the CAS attempts performed. -/
def add_worker_loop (cfg : Config) (CAPACITY : Nat) (core : Bool)
    (lifecycle : Lifecycle) (state : PoolState) (env : List PoolState) :
    Except Unit PoolState × List CasAttempt :=
  if worker_limit_reached cfg CAPACITY core state.worker_count then
    (Except.error (), [])
  else
    match env with
    | [] => (Except.ok (inc_worker_count state), [⟨state, state⟩])
    | actual :: rest =>
      match compare_and_inc_worker_count actual state with
      | Except.ok new => (Except.ok new, [⟨state, actual⟩])
      | Except.error observed =>
        if observed.lifecycle ≠ lifecycle then
          if Lifecycle.Stop ≤ observed.lifecycle then
            (Except.error (), [⟨state, actual⟩])
          else
            with_attempt ⟨state, actual⟩
              (add_worker_loop cfg CAPACITY core observed.lifecycle observed rest)
        else
          with_attempt ⟨state, actual⟩
            (add_worker_loop cfg CAPACITY core lifecycle observed rest)

/-- Outcome of Inner::add_worker: ok carries the post-CAS state word and the
first_job attached to the freshly spawned worker (core.rs lines 363-370);
err hands the first_job option back to the caller. -/
inductive AddWorkerResult (T : Type)
  | ok (new_state : PoolState) (spawned_job : Option T)
  | err (returned : Option T)
deriving DecidableEq

/-- Inner::add_worker (core.rs lines 328-371). job is first_job, state the
initial load of the atomic word, env the interference met by the CAS loop;
the second component lists the CAS attempts the call performed. -/
def add_worker {T : Type} (cfg : Config) (CAPACITY : Nat) (job : Option T)
    (state : PoolState) (env : List PoolState) :
    AddWorkerResult T × List CasAttempt :=
  let core := job.isNone
  if Lifecycle.Stop ≤ state.lifecycle then
    (AddWorkerResult.err job, [])
  else
    match add_worker_loop cfg CAPACITY core state.lifecycle state env with
    | (Except.error _, tr) => (AddWorkerResult.err job, tr)
    | (Except.ok s2, tr) => (AddWorkerResult.ok s2 job, tr)

/-- Modelled from the spec: the bounded MPMC job channel of section 4.2; the
two_lock_queue crate is an external collaborator, abstracted as a capacity,
a FIFO buffer and an open flag. -/
structure Channel (T : Type) where
  capacity : Nat
  buffer : List T
  is_open : Bool
deriving DecidableEq

/-- Channel-level submission errors, from the two_lock_queue TrySendError. -/
inductive TrySendError (T : Type)
  | Full (job : T)
  | Disconnected (job : T)
deriving DecidableEq

/-- Modelled from the spec: channel try_send of section 4.2 — Disconnected
once closed, Full at capacity, otherwise the job joins the FIFO tail. -/
def Channel.try_send {T : Type} (c : Channel T) (job : T) :
    Except (TrySendError T) Unit × Channel T :=
  if c.is_open = false then
    (Except.error (TrySendError.Disconnected job), c)
  else if c.buffer.length ≥ c.capacity then
    (Except.error (TrySendError.Full job), c)
  else
    (Except.ok (), { c with buffer := c.buffer ++ [job] })

/-- Modelled from the spec: close closes the send side of the channel. -/
def Channel.close {T : Type} (c : Channel T) : Channel T :=
  { c with is_open := false }

/-- Result of one channel receive. -/
inductive RecvResult (T : Type)
  | ok (job : T)
  | disconnected
  | would_block
deriving DecidableEq

/-- Modelled from the spec: blocking recv of section 4.2 — pops the FIFO
head; an empty closed channel reports Disconnected; on an empty open channel
the caller would block, reported here as would_block. -/
def Channel.recv {T : Type} (c : Channel T) : RecvResult T × Channel T :=
  match c.buffer with
  | job :: rest => (RecvResult.ok job, { c with buffer := rest })
  | [] =>
    if c.is_open then (RecvResult.would_block, c) else (RecvResult.disconnected, c)

/-- Sender::try_send (core.rs lines 260-279). chan is the channel, state the
word the atomic load observes, env the interference for add_worker. Returns
none when the job.unwrap() on the Full fallback path would panic; otherwise
some of the result, the channel afterwards, and the list of first_job
arguments this call passed to add_worker (none marking a core spawn). -/
def Sender.try_send {T : Type} (cfg : Config) (CAPACITY : Nat)
    (chan : Channel T) (job : T) (state : PoolState) (env : List PoolState) :
    Option (Except (TrySendError T) Unit × Channel T × List (Option T)) :=
  match Channel.try_send chan job with
  | (Except.ok _, chan1) =>
    if state.worker_count < cfg.size then
      some (Except.ok (), chan1, [(none : Option T)])
    else
      some (Except.ok (), chan1, [])
  | (Except.error (TrySendError.Disconnected j), chan1) =>
    some (Except.error (TrySendError.Disconnected j), chan1, [])
  | (Except.error (TrySendError.Full j), chan1) =>
    match (add_worker cfg CAPACITY (some j) state env).1 with
    | AddWorkerResult.ok _ _ => some (Except.ok (), chan1, [some j])
    | AddWorkerResult.err (some j2) =>
      some (Except.error (TrySendError.Full j2), chan1, [some j])
    | AddWorkerResult.err none => none

/-- Submission outcome kinds of spec section 6, used to state what
Sender::send can return. -/
inductive SendOutcome (T : Type)
  | Ok
  | Full (job : T)
  | Timeout (job : T)
  | Disconnected (job : T)
deriving DecidableEq

/-- Modelled from the spec: the blocking channel send Sender::send falls
back to — it blocks until the job is queued or the channel disconnects, so
its outcome is Ok or Disconnected; accepted abstracts which of the two the
wait ends in while the channel is open. -/
def blocking_send {T : Type} (c : Channel T) (job : T) (accepted : Bool) :
    SendOutcome T × Channel T :=
  if c.is_open && accepted then
    (SendOutcome.Ok, { c with buffer := c.buffer ++ [job] })
  else
    (SendOutcome.Disconnected job, c)

/-- Sender::send (core.rs lines 244-250): try_send, with the Full case
falling back to the blocking channel send. The second component is the job
handed to the blocking fallback, when that path was taken. -/
def Sender.send {T : Type} (cfg : Config) (CAPACITY : Nat) (chan : Channel T)
    (job : T) (state : PoolState) (env : List PoolState) (accepted : Bool) :
    Option (SendOutcome T × Option T) :=
  match Sender.try_send cfg CAPACITY chan job state env with
  | none => none
  | some (Except.ok _, _, _) => some (SendOutcome.Ok, none)
  | some (Except.error (TrySendError.Disconnected j), _, _) =>
    some (SendOutcome.Disconnected j, none)
  | some (Except.error (TrySendError.Full j), chan1, _) =>
    some ((blocking_send chan1 j accepted).1, some j)

/-- The pool as the claims see it: the job channel and the atomic state word
shared through Inner (core.rs lines 40-46). -/
structure ThreadPool (T : Type) where
  chan : Channel T
  state : PoolState
deriving DecidableEq

/-- ThreadPool::shutdown (core.rs lines 187-189): it only closes the queue. -/
def ThreadPool.shutdown {T : Type} (p : ThreadPool T) : ThreadPool T :=
  { p with chan := p.chan.close }

/-- The drain loop of ThreadPool::shutdown_now (core.rs lines 195-200):
receive and discard jobs until recv no longer yields one; the fuel bounds
the iterations, and the buffer length suffices for a closed channel. -/
def drain_go {T : Type} : Nat → Channel T → Channel T
  | 0, c => c
  | fuel + 1, c =>
    match Channel.recv c with
    | (RecvResult.ok _, c2) => drain_go fuel c2
    | (RecvResult.disconnected, c2) => c2
    | (RecvResult.would_block, c2) => c2

/-- Entry point of the drain loop, with enough fuel to empty the buffer. -/
def drain_loop {T : Type} (c : Channel T) : Channel T :=
  drain_go c.buffer.length c

/-- ThreadPool::shutdown_now (core.rs lines 191-202): close the queue,
attempt the Stop transition, and drain exactly when this call performed the
transition; the Bool records whether the drain loop was entered. -/
def ThreadPool.shutdown_now {T : Type} (p : ThreadPool T) : ThreadPool T × Bool :=
  let c := p.chan.close
  match try_transition_to_stop p.state with
  | (true, s2) => ({ chan := drain_loop c, state := s2 }, true)
  | (false, s2) => ({ chan := c, state := s2 }, false)

/-- One change of the packed atomic state word. A worker-count increment is
the successful CAS of add_worker and carries its guard (core.rs lines
340-352); a decrement is a worker exit; a transition rewrites the phase and
leaves the count alone (spec section 4.1). -/
inductive PoolStep (cfg : Config) (CAPACITY : Nat) : PoolState → PoolState → Prop
  | inc_worker (core : Bool) (s : PoolState) :
      worker_limit_reached cfg CAPACITY core s.worker_count = false →
      PoolStep cfg CAPACITY s (inc_worker_count s)
  | dec_worker (s : PoolState) :
      PoolStep cfg CAPACITY s { s with worker_count := s.worker_count - 1 }
  | transition (s : PoolState) (l : Lifecycle) :
      PoolStep cfg CAPACITY s { s with lifecycle := l }

/-- States of the atomic word reachable from the freshly built pool, whose
word is (Running, 0) (core.rs line 138). -/
inductive Reachable (cfg : Config) (CAPACITY : Nat) : PoolState → Prop
  | init : Reachable cfg CAPACITY ⟨Lifecycle.Running, 0⟩
  | step {s s2 : PoolState} : Reachable cfg CAPACITY s →
      PoolStep cfg CAPACITY s s2 → Reachable cfg CAPACITY s2

/-- Concrete pool used by counterexamples and witnesses. -/
def example_pool : ThreadPool Nat :=
  ⟨⟨4, [], true⟩, ⟨Lifecycle.Running, 0⟩⟩

/-- Concrete configuration used by counterexamples and witnesses: one core
worker, two workers at most. -/
def example_config : Config := ⟨1, 2, none, none⟩

/-- Unfolding of the add_worker spawn guard. -/
theorem worker_limit_reached_false_iff (cfg : Config) (CAPACITY : Nat)
    (core : Bool) (wc : Nat) :
    worker_limit_reached cfg CAPACITY core wc = false ↔
      wc < CAPACITY ∧ wc < (if core then cfg.size else cfg.max_size) := by
  simp [worker_limit_reached, Nat.not_le, Nat.lt_iff_add_one_le]

/-- Every CAS attempt the loop performs expects a state that passed the
worker-limit guard. -/
theorem add_worker_loop_attempts_bounded (cfg : Config) (CAPACITY : Nat)
    (core : Bool) :
    ∀ (env : List PoolState) (lc : Lifecycle) (st : PoolState),
      ∀ a ∈ (add_worker_loop cfg CAPACITY core lc st env).2,
        worker_limit_reached cfg CAPACITY core a.expected.worker_count = false := by
  intro env
  induction env with
  | nil =>
    intro lc st a ha
    by_cases h : worker_limit_reached cfg CAPACITY core st.worker_count = true
    · simp [add_worker_loop, h] at ha
    · simp [add_worker_loop, h] at ha
      simp [ha, Bool.not_eq_true] at h ⊢
      exact h
  | cons actual rest ih =>
    intro lc st a ha
    by_cases h : worker_limit_reached cfg CAPACITY core st.worker_count = true
    · simp [add_worker_loop, h] at ha
    · by_cases heq : actual = st
      · simp [add_worker_loop, h, compare_and_inc_worker_count, heq] at ha
        simp [ha, Bool.not_eq_true] at h ⊢
        exact h
      · by_cases hlc : actual.lifecycle = lc
        · simp [add_worker_loop, h, compare_and_inc_worker_count, heq, hlc,
            with_attempt] at ha
          rcases ha with ha | ha
          · simp [ha, Bool.not_eq_true] at h ⊢
            exact h
          · exact ih lc actual a ha
        · by_cases hstop : Lifecycle.Stop ≤ actual.lifecycle
          · simp [add_worker_loop, h, compare_and_inc_worker_count, heq, hlc,
              hstop] at ha
            simp [ha, Bool.not_eq_true] at h ⊢
            exact h
          · simp [add_worker_loop, h, compare_and_inc_worker_count, heq, hlc,
              hstop, with_attempt] at ha
            rcases ha with ha | ha
            · simp [ha, Bool.not_eq_true] at h ⊢
              exact h
            · exact ih actual.lifecycle actual a ha

/-- When the loop ends in the error branch, every CAS attempt it made had
failed: the loop performed no write to the atomic word. -/
theorem add_worker_loop_err_attempts_failed (cfg : Config) (CAPACITY : Nat)
    (core : Bool) :
    ∀ (env : List PoolState) (lc : Lifecycle) (st : PoolState),
      (add_worker_loop cfg CAPACITY core lc st env).1 = Except.error () →
      ∀ a ∈ (add_worker_loop cfg CAPACITY core lc st env).2,
        a.succeeded = false := by
  intro env
  induction env with
  | nil =>
    intro lc st hr a ha
    by_cases h : worker_limit_reached cfg CAPACITY core st.worker_count = true
    · simp [add_worker_loop, h] at ha
    · simp [add_worker_loop, h] at hr
  | cons actual rest ih =>
    intro lc st hr a ha
    by_cases h : worker_limit_reached cfg CAPACITY core st.worker_count = true
    · simp [add_worker_loop, h] at ha
    · by_cases heq : actual = st
      · simp [add_worker_loop, h, compare_and_inc_worker_count, heq] at hr
      · have hfail : CasAttempt.succeeded ⟨st, actual⟩ = false := by
          simp [CasAttempt.succeeded]
          exact fun hh => heq hh.symm
        by_cases hlc : actual.lifecycle = lc
        · simp [add_worker_loop, h, compare_and_inc_worker_count, heq, hlc,
            with_attempt] at ha hr
          rcases ha with ha | ha
          · simp [ha, hfail]
          · exact ih lc actual hr a ha
        · by_cases hstop : Lifecycle.Stop ≤ actual.lifecycle
          · simp [add_worker_loop, h, compare_and_inc_worker_count, heq, hlc,
              hstop] at ha
            simp [ha, hfail]
          · simp [add_worker_loop, h, compare_and_inc_worker_count, heq, hlc,
              hstop, with_attempt] at ha hr
            rcases ha with ha | ha
            · simp [ha, hfail]
            · exact ih actual.lifecycle actual hr a ha

/-- add_worker hands the very option it was given back in its err value. -/
theorem add_worker_err_returned_eq {T : Type} (cfg : Config) (CAPACITY : Nat)
    (job : Option T) (s : PoolState) (env : List PoolState) (r : Option T)
    (h : (add_worker cfg CAPACITY job s env).1 = AddWorkerResult.err r) :
    r = job := by
  by_cases hst : Lifecycle.Stop ≤ s.lifecycle
  · simp [add_worker, hst] at h
    exact h.symm
  · rcases hl : add_worker_loop cfg CAPACITY job.isNone s.lifecycle s env with ⟨res, tr⟩
    cases res with
    | error u =>
      simp [add_worker, hst, hl] at h
      exact h.symm
    | ok s2 =>
      simp [add_worker, hst, hl] at h

/-- Running the drain loop with fuel at least the buffer length empties the
buffer and changes nothing else. -/
theorem drain_go_eq {T : Type} :
    ∀ (n : Nat) (c : Channel T), c.buffer.length ≤ n →
      drain_go n c = { c with buffer := ([] : List T) } := by
  intro n
  induction n with
  | zero =>
    intro c h
    obtain ⟨cap, buf, op⟩ := c
    simp [Nat.le_zero, List.length_eq_zero] at h
    simp [drain_go, h]
  | succ n ih =>
    intro c h
    obtain ⟨cap, buf, op⟩ := c
    cases buf with
    | nil =>
      cases op <;> simp [drain_go, Channel.recv]
    | cons j rest =>
      simp at h
      have := ih ⟨cap, rest, op⟩ (by simpa using h)
      simp [drain_go, Channel.recv, this]

/-- The drain loop empties the buffer and changes nothing else. -/
theorem drain_loop_eq {T : Type} (c : Channel T) :
    drain_loop c = { c with buffer := ([] : List T) } :=
  drain_go_eq c.buffer.length c (Nat.le_refl _)

/-- Closing a channel twice is the same as closing it once. -/
theorem Channel.close_idem {T : Type} (c : Channel T) :
    c.close.close = c.close := by
  cases c
  rfl

/-- Closing an already closed channel changes nothing. -/
theorem Channel.close_of_closed {T : Type} (c : Channel T)
    (h : c.is_open = false) : c.close = c := by
  obtain ⟨cap, buf, op⟩ := c
  simp at h
  simp [Channel.close, h]

/-- C1: in Inner::add_worker, a worker-count increment is attempted only
while the observed worker_count is strictly below CAPACITY and below the
target bound — config.size when first_job is none (core spawn), and
config.max_size when first_job is some (overflow spawn); and when the
observed count already reaches CAPACITY or the target, the call returns Err
carrying first_job, after no CAS attempt and with no worker spawned. -/
theorem c1_add_worker_bounds {T : Type} (cfg : Config) (CAPACITY : Nat)
    (job : Option T) (s : PoolState) (env : List PoolState) :
    (∀ a ∈ (add_worker cfg CAPACITY job s env).2,
        worker_limit_reached cfg CAPACITY job.isNone a.expected.worker_count = false)
    ∧ (worker_limit_reached cfg CAPACITY job.isNone s.worker_count = true →
        add_worker cfg CAPACITY job s env = (AddWorkerResult.err job, [])) := by
  constructor
  · intro a ha
    by_cases hst : Lifecycle.Stop ≤ s.lifecycle
    · simp [add_worker, hst] at ha
    · rcases hl : add_worker_loop cfg CAPACITY job.isNone s.lifecycle s env with ⟨res, tr⟩
      have htr : (add_worker cfg CAPACITY job s env).2 = tr := by
        cases res <;> simp [add_worker, hst, hl]
      rw [htr] at ha
      have hb := add_worker_loop_attempts_bounded cfg CAPACITY job.isNone env s.lifecycle s
      rw [hl] at hb
      exact hb a ha
  · intro hlim
    by_cases hst : Lifecycle.Stop ≤ s.lifecycle
    · simp [add_worker, hst]
    · cases env <;> simp [add_worker, add_worker_loop, hst, hlim]

/-- Witness for C1 at concrete inputs: with CAPACITY 7 and max_size 2, an
overflow add_worker observing worker_count 9 returns Err with its job and an
empty CAS trace, and the attempt recorded from worker_count 0 passed the
guard. -/
theorem c1_add_worker_bounds_witness :
    add_worker example_config 7 (some 5) ⟨Lifecycle.Running, 9⟩ ([] : List PoolState)
        = (AddWorkerResult.err (some 5), [])
    ∧ worker_limit_reached example_config 7 (some 5 : Option Nat).isNone
        (CasAttempt.mk ⟨Lifecycle.Running, 0⟩
          ⟨Lifecycle.Running, 0⟩).expected.worker_count = false := by
  constructor
  · exact (c1_add_worker_bounds example_config 7 (some 5)
      ⟨Lifecycle.Running, 9⟩ []).2 (by decide)
  · exact (c1_add_worker_bounds example_config 7 (some 5)
      ⟨Lifecycle.Running, 0⟩ []).1
      ⟨⟨Lifecycle.Running, 0⟩, ⟨Lifecycle.Running, 0⟩⟩ (by decide)

/-- C10: add_worker is atomic on error — whenever it returns Err, every CAS
attempt it made had failed, so the call wrote nothing to the packed atomic
state word; and if any CAS attempt succeeded the call returns Ok with the
worker spawned on the passed job. -/
theorem c10_add_worker_err_atomic {T : Type} (cfg : Config) (CAPACITY : Nat)
    (job : Option T) (s : PoolState) (env : List PoolState) :
    (∀ r, (add_worker cfg CAPACITY job s env).1 = AddWorkerResult.err r →
        ∀ a ∈ (add_worker cfg CAPACITY job s env).2, a.succeeded = false)
    ∧ ((∃ a ∈ (add_worker cfg CAPACITY job s env).2, a.succeeded = true) →
        ∃ s2, (add_worker cfg CAPACITY job s env).1 = AddWorkerResult.ok s2 job) := by
  by_cases hst : Lifecycle.Stop ≤ s.lifecycle
  · constructor
    · intro r hr a ha
      simp [add_worker, hst] at ha
    · rintro ⟨a, ha, hsucc⟩
      simp [add_worker, hst] at ha
  · rcases hl : add_worker_loop cfg CAPACITY job.isNone s.lifecycle s env with ⟨res, tr⟩
    cases res with
    | error u =>
      cases u
      have hfail := add_worker_loop_err_attempts_failed cfg CAPACITY job.isNone env s.lifecycle s
      rw [hl] at hfail
      constructor
      · intro r hr a ha
        simp [add_worker, hst, hl] at ha
        exact hfail rfl a ha
      · rintro ⟨a, ha, hsucc⟩
        simp [add_worker, hst, hl] at ha
        have := hfail rfl a ha
        rw [this] at hsucc
        exact absurd hsucc (by simp)
    | ok s2 =>
      constructor
      · intro r hr
        simp [add_worker, hst, hl] at hr
      · intro _
        exact ⟨s2, by simp [add_worker, hst, hl]⟩

/-- Witness for C10 at a concrete input: the interference-free overflow call
from worker_count 0 performs one successful CAS, so it returns Ok carrying
the job it was passed. -/
theorem c10_add_worker_err_atomic_witness :
    ∃ s2, (add_worker example_config 7 (some 5) ⟨Lifecycle.Running, 0⟩
        ([] : List PoolState)).1 = AddWorkerResult.ok s2 (some 5) :=
  (c10_add_worker_err_atomic example_config 7 (some 5) ⟨Lifecycle.Running, 0⟩ []).2
    ⟨⟨⟨Lifecycle.Running, 0⟩, ⟨Lifecycle.Running, 0⟩⟩, by decide, by decide⟩

/-- C9: the job.unwrap() in the Full branch of Sender::try_send can never
panic — add_worker returns in its Err value exactly the Option it was
passed, and on the Full branch it is passed Some, so try_send never hits the
none-unwrap path (modelled as the none result). -/
theorem c9_full_unwrap_safe {T : Type} (cfg : Config) (CAPACITY : Nat)
    (s : PoolState) (env : List PoolState) :
    (∀ (job r : Option T),
        (add_worker cfg CAPACITY job s env).1 = AddWorkerResult.err r → r = job)
    ∧ (∀ (chan : Channel T) (j : T),
        (Sender.try_send cfg CAPACITY chan j s env).isSome = true) := by
  constructor
  · intro job r hr
    exact add_worker_err_returned_eq cfg CAPACITY job s env r hr
  · intro chan j
    rcases hc : Channel.try_send chan j with ⟨res, chan1⟩
    cases res with
    | ok u =>
      simp only [Sender.try_send, hc]
      split <;> simp
    | error e =>
      cases e with
      | Disconnected j2 => simp [Sender.try_send, hc]
      | Full j2 =>
        rcases ha : (add_worker cfg CAPACITY (some j2) s env).1 with ⟨s2, jb⟩ | ⟨r⟩
        · simp [Sender.try_send, hc, ha]
        · have hr := add_worker_err_returned_eq cfg CAPACITY (some j2) s env r ha
          subst hr
          simp [Sender.try_send, hc, ha]

/-- Witness for C9 at concrete inputs: a call rejected at phase Stop returns
exactly the Some it was passed, and a try_send against a zero-capacity
channel produces a result rather than a panic. -/
theorem c9_full_unwrap_safe_witness :
    ((some 3 : Option Nat) = some 3)
    ∧ (Sender.try_send example_config 7 (⟨0, [], true⟩ : Channel Nat) 5
        ⟨Lifecycle.Running, 0⟩ []).isSome = true := by
  constructor
  · exact (c9_full_unwrap_safe example_config 7 ⟨Lifecycle.Stop, 0⟩
      ([] : List PoolState)).1 (some 3) (some 3) (by decide)
  · exact (c9_full_unwrap_safe example_config 7 ⟨Lifecycle.Running, 0⟩ []).2
      ⟨0, [], true⟩ 5

/-- C4 counterexample: with phase Shutdown, an empty queue (add_worker never
inspects the queue at all) and an attached job, add_worker does not return
Err — at worker_count 0 it increments the count and spawns the worker. -/
theorem c4_shutdown_empty_queue_cex :
    (add_worker example_config 7 (some 0) ⟨Lifecycle.Shutdown, 0⟩
        ([] : List PoolState)).1
      = AddWorkerResult.ok ⟨Lifecycle.Shutdown, 1⟩ (some 0)
    ∧ (add_worker example_config 7 (some 0) ⟨Lifecycle.Shutdown, 0⟩
        ([] : List PoolState)).1
      ≠ AddWorkerResult.err (some 0) := by decide

/-- C4 as amended: add_worker performs no Shutdown-and-empty-queue early
return — called with an attached job in phase Shutdown it proceeds to the
capacity check exactly as in phase Running, and spawns whenever the
worker-limit guard passes. -/
theorem c4_add_worker_shutdown_proceeds {T : Type} (cfg : Config)
    (CAPACITY : Nat) (j : T) (s : PoolState)
    (hphase : s.lifecycle = Lifecycle.Shutdown)
    (hlim : worker_limit_reached cfg CAPACITY false s.worker_count = false) :
    (add_worker cfg CAPACITY (some j) s ([] : List PoolState)).1
      = AddWorkerResult.ok (inc_worker_count s) (some j) := by
  have hst : ¬ Lifecycle.Stop ≤ s.lifecycle := by
    rw [hphase]
    decide
  simp [add_worker, add_worker_loop, hst, hlim]

/-- Witness for the amended C4: in phase Shutdown with one worker of at most
two, the overflow spawn goes through. -/
theorem c4_add_worker_shutdown_proceeds_witness :
    (add_worker example_config 7 (some 1) ⟨Lifecycle.Shutdown, 1⟩
        ([] : List PoolState)).1
      = AddWorkerResult.ok ⟨Lifecycle.Shutdown, 2⟩ (some 1) :=
  c4_add_worker_shutdown_proceeds example_config 7 1 ⟨Lifecycle.Shutdown, 1⟩
    rfl (by decide)

/-- C2: Sender::try_send — when the channel accepts the job it returns Ok
and calls add_worker(none) exactly when the loaded worker_count is below
config.size; when the channel is full it calls add_worker(some job),
returning Ok on success and Full with the same job on failure; when the
channel is disconnected it returns Disconnected with the job. -/
theorem c2_try_send_contract {T : Type} (cfg : Config) (CAPACITY : Nat)
    (chan : Channel T) (job : T) (state : PoolState) (env : List PoolState) :
    (chan.is_open = true → chan.buffer.length < chan.capacity →
      Sender.try_send cfg CAPACITY chan job state env =
        some (Except.ok (), { chan with buffer := chan.buffer ++ [job] },
          if state.worker_count < cfg.size then [(none : Option T)] else []))
    ∧ (chan.is_open = true → chan.capacity ≤ chan.buffer.length →
        (∀ (s2 : PoolState) (j2 : Option T),
            (add_worker cfg CAPACITY (some job) state env).1
              = AddWorkerResult.ok s2 j2 →
          Sender.try_send cfg CAPACITY chan job state env =
            some (Except.ok (), chan, [some job]))
        ∧ (∀ r, (add_worker cfg CAPACITY (some job) state env).1
              = AddWorkerResult.err r →
          Sender.try_send cfg CAPACITY chan job state env =
            some (Except.error (TrySendError.Full job), chan, [some job])))
    ∧ (chan.is_open = false →
        Sender.try_send cfg CAPACITY chan job state env =
          some (Except.error (TrySendError.Disconnected job), chan, [])) := by
  refine ⟨?_, fun hop hlen => ⟨?_, ?_⟩, ?_⟩
  · intro hop hlen
    have h2 : ¬ (chan.buffer.length ≥ chan.capacity) := Nat.not_le.mpr hlen
    by_cases hwc : state.worker_count < cfg.size <;>
      simp [Sender.try_send, Channel.try_send, hop, h2, hwc]
  · intro s2 j2 ha
    simp [Sender.try_send, Channel.try_send, hop, hlen, ha]
  · intro r ha
    have hr := add_worker_err_returned_eq cfg CAPACITY (some job) state env r ha
    subst hr
    simp [Sender.try_send, Channel.try_send, hop, hlen, ha]
  · intro hop
    simp [Sender.try_send, Channel.try_send, hop]

/-- Witness for C2 at concrete inputs, one per channel outcome: an accepting
channel (Ok with a core add_worker call), a zero-capacity channel whose
overflow spawn succeeds (Ok), and a closed channel (Disconnected). -/
theorem c2_try_send_contract_witness :
    Sender.try_send example_config 7 (⟨2, [], true⟩ : Channel Nat) 5
        ⟨Lifecycle.Running, 0⟩ [] =
      some (Except.ok (), (⟨2, [5], true⟩ : Channel Nat), [(none : Option Nat)])
    ∧ Sender.try_send example_config 7 (⟨0, [], true⟩ : Channel Nat) 5
        ⟨Lifecycle.Running, 0⟩ [] =
      some (Except.ok (), (⟨0, [], true⟩ : Channel Nat), [some 5])
    ∧ Sender.try_send example_config 7 (⟨2, [], false⟩ : Channel Nat) 5
        ⟨Lifecycle.Running, 0⟩ [] =
      some (Except.error (TrySendError.Disconnected 5),
        (⟨2, [], false⟩ : Channel Nat), []) := by
  refine ⟨?_, ?_, ?_⟩
  · exact (c2_try_send_contract example_config 7 ⟨2, [], true⟩ 5
      ⟨Lifecycle.Running, 0⟩ []).1 rfl (by decide)
  · exact ((c2_try_send_contract example_config 7 ⟨0, [], true⟩ 5
      ⟨Lifecycle.Running, 0⟩ []).2.1 rfl (by decide)).1
      ⟨Lifecycle.Running, 1⟩ (some 5) (by decide)
  · exact (c2_try_send_contract example_config 7 ⟨2, [], false⟩ 5
      ⟨Lifecycle.Running, 0⟩ []).2.2 rfl

/-- C7: Sender::send returns only Ok or Disconnected, never Full and never
Timeout — when try_send ends in Full it falls back to the blocking channel
send, handing it exactly the job the Full carried. -/
theorem c7_send_no_full_no_timeout {T : Type} (cfg : Config) (CAPACITY : Nat)
    (chan : Channel T) (job : T) (state : PoolState) (env : List PoolState)
    (accepted : Bool) :
    ∀ (out : SendOutcome T) (fb : Option T),
      Sender.send cfg CAPACITY chan job state env accepted = some (out, fb) →
        (out = SendOutcome.Ok ∨ ∃ j2, out = SendOutcome.Disconnected j2)
        ∧ (∀ (j0 : T) (c1 : Channel T) (calls : List (Option T)),
            Sender.try_send cfg CAPACITY chan job state env =
              some (Except.error (TrySendError.Full j0), c1, calls) →
            fb = some j0) := by
  intro out fb hsend
  rcases hts : Sender.try_send cfg CAPACITY chan job state env with _ | ⟨res, chan1, calls0⟩
  · simp [Sender.send, hts] at hsend
  · cases res with
    | ok u =>
      simp [Sender.send, hts] at hsend
      obtain ⟨h1, h2⟩ := hsend
      subst h1
      subst h2
      refine ⟨Or.inl rfl, ?_⟩
      intro j0 c1 calls h
      simp at h
    | error e =>
      cases e with
      | Disconnected j2 =>
        simp [Sender.send, hts] at hsend
        obtain ⟨h1, h2⟩ := hsend
        subst h1
        subst h2
        refine ⟨Or.inr ⟨j2, rfl⟩, ?_⟩
        intro j0 c1 calls h
        simp at h
      | Full j2 =>
        simp [Sender.send, hts] at hsend
        obtain ⟨h1, h2⟩ := hsend
        subst h2
        refine ⟨?_, ?_⟩
        · by_cases hb : (chan1.is_open && accepted) = true <;>
            simp [blocking_send, hb] at h1 <;> rw [← h1]
          · exact Or.inl rfl
          · exact Or.inr ⟨j2, rfl⟩
        · intro j0 c1 calls h
          simp at h
          rw [h.1]

/-- Witness for C7 at a concrete input: a zero-capacity channel forces the
Full path, the overflow spawn is refused at worker_count 9, and the blocking
fallback accepts, so send ends Ok having handed the blocking send the job. -/
theorem c7_send_no_full_no_timeout_witness :
    ((SendOutcome.Ok : SendOutcome Nat) = SendOutcome.Ok
      ∨ ∃ j2, (SendOutcome.Ok : SendOutcome Nat) = SendOutcome.Disconnected j2)
    ∧ (some 5 : Option Nat) = some 5 := by
  constructor
  · exact (c7_send_no_full_no_timeout example_config 7 ⟨0, [], true⟩ 5
      ⟨Lifecycle.Running, 9⟩ [] true SendOutcome.Ok (some 5) (by decide)).1
  · exact (c7_send_no_full_no_timeout example_config 7 ⟨0, [], true⟩ 5
      ⟨Lifecycle.Running, 9⟩ [] true SendOutcome.Ok (some 5) (by decide)).2
      5 ⟨0, [], true⟩ [some 5] (by rfl)

/-- C3 counterexample: ThreadPool::shutdown on a Running pool leaves the
lifecycle phase at Running — the claimed Running to Shutdown transition is
not performed by the code, which only closes the queue. -/
theorem c3_shutdown_no_transition_cex :
    example_pool.state.lifecycle = Lifecycle.Running
    ∧ example_pool.shutdown.state.lifecycle ≠ Lifecycle.Shutdown := by decide

/-- C3 as amended: ThreadPool::shutdown closes the job queue and never
blocks, and it leaves the packed atomic state — lifecycle phase included —
unchanged; no Running to Shutdown transition takes place. -/
theorem c3_shutdown_closes_queue_only {T : Type} (p : ThreadPool T) :
    p.shutdown.chan.is_open = false
    ∧ p.shutdown.chan.buffer = p.chan.buffer
    ∧ p.shutdown.chan.capacity = p.chan.capacity
    ∧ p.shutdown.state = p.state := by
  obtain ⟨⟨cap, buf, op⟩, st⟩ := p
  simp [ThreadPool.shutdown, Channel.close]

/-- C5: ThreadPool::shutdown_now closes the queue and attempts the Stop
transition; the drain loop runs exactly when this call performed the
transition, in which case the remaining queued jobs are discarded — and a
later shutdown_now finds the phase already at Stop and does not drain
again. -/
theorem c5_shutdown_now_contract {T : Type} (p : ThreadPool T) :
    p.shutdown_now.1.chan.is_open = false
    ∧ (p.shutdown_now.2 = true ↔ p.state.lifecycle ≤ Lifecycle.Shutdown)
    ∧ (p.shutdown_now.2 = true →
        p.shutdown_now.1.chan.buffer = []
        ∧ p.shutdown_now.1.state = { p.state with lifecycle := Lifecycle.Stop })
    ∧ (p.shutdown_now.2 = false →
        p.shutdown_now.1.chan.buffer = p.chan.buffer
        ∧ p.shutdown_now.1.state = p.state)
    ∧ p.shutdown_now.1.shutdown_now.2 = false := by
  by_cases h : p.state.lifecycle ≤ Lifecycle.Shutdown
  · have hstop : ¬ (Lifecycle.Stop ≤ Lifecycle.Shutdown) := by decide
    simp [ThreadPool.shutdown_now, try_transition_to_stop, h, drain_loop_eq,
      Channel.close, hstop]
  · simp [ThreadPool.shutdown_now, try_transition_to_stop, h, Channel.close]

/-- Witness for C5 at a concrete input: on the Running example pool with one
queued job, shutdown_now drains the queue and moves the phase to Stop. -/
theorem c5_shutdown_now_contract_witness :
    (ThreadPool.shutdown_now ⟨⟨4, [9], true⟩, ⟨Lifecycle.Running, 1⟩⟩).1.chan.buffer
        = ([] : List Nat)
    ∧ (ThreadPool.shutdown_now
        (⟨⟨4, [9], true⟩, ⟨Lifecycle.Running, 1⟩⟩ : ThreadPool Nat)).1.state
        = ⟨Lifecycle.Stop, 1⟩ :=
  (c5_shutdown_now_contract
    (⟨⟨4, [9], true⟩, ⟨Lifecycle.Running, 1⟩⟩ : ThreadPool Nat)).2.2.1 (by decide)

/-- C8: a second shutdown or shutdown_now is safe and changes nothing — the
repeated queue close is idempotent, and the repeated shutdown_now finds the
Stop transition already taken, so it performs no second drain. -/
theorem c8_double_shutdown_idempotent {T : Type} (p : ThreadPool T) :
    p.shutdown.shutdown = p.shutdown
    ∧ p.shutdown_now.1.shutdown_now.1 = p.shutdown_now.1
    ∧ p.shutdown_now.1.shutdown_now.2 = false := by
  refine ⟨?_, ?_, ?_⟩
  · simp [ThreadPool.shutdown, Channel.close_idem]
  · by_cases h : p.state.lifecycle ≤ Lifecycle.Shutdown
    · have hstop : ¬ (Lifecycle.Stop ≤ Lifecycle.Shutdown) := by decide
      simp [ThreadPool.shutdown_now, try_transition_to_stop, h, hstop,
        drain_loop_eq, Channel.close]
    · simp [ThreadPool.shutdown_now, try_transition_to_stop, h, Channel.close]
  · by_cases h : p.state.lifecycle ≤ Lifecycle.Shutdown
    · have hstop : ¬ (Lifecycle.Stop ≤ Lifecycle.Shutdown) := by decide
      simp [ThreadPool.shutdown_now, try_transition_to_stop, h, hstop]
    · simp [ThreadPool.shutdown_now, try_transition_to_stop, h]

/-- A PoolStep preserves the P1 bound on the worker count. -/
theorem pool_step_preserves_bound (cfg : Config) (CAPACITY : Nat)
    (hsz : cfg.size ≤ cfg.max_size) {s s2 : PoolState}
    (hstep : PoolStep cfg CAPACITY s s2)
    (ih : s.worker_count ≤ Nat.min cfg.max_size CAPACITY) :
    s2.worker_count ≤ Nat.min cfg.max_size CAPACITY := by
  cases hstep with
  | inc_worker core t hguard =>
    rw [worker_limit_reached_false_iff] at hguard
    obtain ⟨hcap, htgt⟩ := hguard
    have htgt2 : s.worker_count < cfg.max_size := by
      cases core with
      | true =>
        simp at htgt
        exact Nat.lt_of_lt_of_le htgt hsz
      | false =>
        simp at htgt
        exact htgt
    have h1 : s.worker_count + 1 ≤ cfg.max_size := htgt2
    have h2 : s.worker_count + 1 ≤ CAPACITY := hcap
    simp only [inc_worker_count]
    exact Nat.le_min.mpr ⟨h1, h2⟩
  | dec_worker t =>
    exact Nat.le_trans (Nat.sub_le _ _) ih
  | transition t l =>
    exact ih

/-- C6: the invariant P1 — in every reachable pool state the worker count
stays between 0 and min(max_size, CAPACITY), because the increments are
exactly the successful add_worker CAS steps, each guarded by the observed
count being strictly below CAPACITY and below its target, and the count is
otherwise only decremented; and indeed every CAS attempt the add_worker loop
issues expects a count strictly below CAPACITY and below its target. -/
theorem c6_worker_count_invariant (cfg : Config) (CAPACITY : Nat)
    (hcfg : build_asserts cfg = true) :
    (∀ s, Reachable cfg CAPACITY s →
        s.worker_count ≤ Nat.min cfg.max_size CAPACITY)
    ∧ (∀ (core : Bool) (env : List PoolState) (lc : Lifecycle) (st : PoolState),
        ∀ a ∈ (add_worker_loop cfg CAPACITY core lc st env).2,
          a.expected.worker_count < CAPACITY
          ∧ a.expected.worker_count < (if core then cfg.size else cfg.max_size)) := by
  have hsz : cfg.size ≤ cfg.max_size := by
    simp [build_asserts] at hcfg
    exact hcfg.2
  constructor
  · intro s hs
    induction hs with
    | init => exact Nat.zero_le _
    | step hr hstep ih =>
      exact pool_step_preserves_bound cfg CAPACITY hsz hstep ih
  · intro core env lc st a ha
    have hb := add_worker_loop_attempts_bounded cfg CAPACITY core env lc st a ha
    rw [worker_limit_reached_false_iff] at hb
    exact hb

/-- Witness for C6 at a concrete input: with size 2, max_size 3 and CAPACITY
7, the state reached by one guarded core-worker increment from the initial
word respects the bound. -/
theorem c6_worker_count_invariant_witness :
    (⟨Lifecycle.Running, 1⟩ : PoolState).worker_count ≤ Nat.min 3 7 :=
  (c6_worker_count_invariant ⟨2, 3, none, none⟩ 7 (by decide)).1
    ⟨Lifecycle.Running, 1⟩
    (Reachable.step Reachable.init
      (PoolStep.inc_worker true ⟨Lifecycle.Running, 0⟩ (by decide)))

end Multix
